import Mathlib

/-
  Shallow embedding of the consensus / inference core of the
  NASA_Exoplanets_API repository (FastAPI + SQLAlchemy + sklearn).

  Numeric fields that the Python source stores as floats are modelled as
  exact rationals (ℚ); database tables are modelled as Lean lists of
  records; HTTP-level failures (HTTPException) are modelled as `Except`
  values carrying the status code.
-/

namespace NasaExo

/-! ## Data model (app/models) -/

/-- `UserRole` enum from app/models/user.py. -/
inductive UserRole where
  | researcher
  | moderator
  | admin
deriving DecidableEq, Repr

/-- `User` row from app/models/user.py, restricted to the fields that the
feedback-weight computation reads. -/
structure User where
  id : Nat
  role : UserRole
deriving DecidableEq, Repr

/-- `ResearcherFeedback` row from app/models/feedback.py (the fields that the
feedback service reads and writes).  `agrees_with_ai` is a nullable boolean,
hence `Option Bool`. -/
structure ResearcherFeedback where
  id : Nat
  candidate_id : Nat
  researcher_id : Nat
  expert_classification : String
  detailed_reasoning : String
  confidence_score : ℚ
  agrees_with_ai : Option Bool
  feedback_weight : ℚ
  supporting_data_references : Option String := none
  methodology_description : Option String := none
  time_spent_on_analysis : Option Int := none
  tools_used : Option String := none
deriving DecidableEq, Repr

/-- Python truthiness of a nullable boolean: `if fb.agrees_with_ai:` is taken
exactly when the stored value is `True`; both `None` and `False` are falsy. -/
def truthy : Option Bool → Bool
  | some true => true
  | _ => false

/-! ## Consensus engine (app/services/feedback_service.py) -/

/-- One step of the `classification_counts` dictionary-building loop in
`calculate_consensus_score`: increment the count stored under key `c`,
inserting the key at the end when absent (Python dict insertion order). -/
def bumpLabel (m : List (String × Nat)) (c : String) : List (String × Nat) :=
  match m with
  | [] => [(c, 1)]
  | (k, v) :: rest => if k = c then (k, v + 1) :: rest else (k, v) :: bumpLabel rest c

/-- The count recorded for label `c` in a breakdown dictionary (0 when the key
is absent). -/
def labelCount : List (String × Nat) → String → Nat
  | [], _ => 0
  | (k, v) :: rest, c => if k = c then v else labelCount rest c

/-- Result dictionary of `FeedbackService.calculate_consensus_score`.  The
Python code omits the `weighted_total` key in the empty-feedback branch, hence
`Option ℚ`. -/
structure ConsensusStats where
  consensus_score : ℚ
  total_feedback : Nat
  agreement_rate : ℚ
  classification_breakdown : List (String × Nat)
  average_confidence : ℚ
  weighted_total : Option ℚ
deriving DecidableEq, Repr

/-- `FeedbackService.calculate_consensus_score`
(app/services/feedback_service.py, lines 108-149), applied to the list of
feedback entries fetched for the candidate. -/
def calculate_consensus_score (feedback_entries : List ResearcherFeedback) :
    ConsensusStats :=
  if feedback_entries = [] then
    { consensus_score := 0
      total_feedback := 0
      agreement_rate := 0
      classification_breakdown := []
      average_confidence := 0
      weighted_total := none }
  else
    let total_weight : ℚ := (feedback_entries.map (·.feedback_weight)).sum
    let weighted_confidence : ℚ :=
      (feedback_entries.map (fun fb => fb.confidence_score * fb.feedback_weight)).sum
    let classification_counts :=
      feedback_entries.foldl (fun m fb => bumpLabel m fb.expert_classification) []
    let ai_agreement_count : Nat :=
      feedback_entries.countP (fun fb => truthy fb.agrees_with_ai)
    let agreement_rate : ℚ := (ai_agreement_count : ℚ) / feedback_entries.length
    let consensus_score : ℚ :=
      if 0 < total_weight then weighted_confidence / total_weight else 0
    let average_confidence : ℚ :=
      (feedback_entries.map (·.confidence_score)).sum / feedback_entries.length
    { consensus_score := consensus_score
      total_feedback := feedback_entries.length
      agreement_rate := agreement_rate
      classification_breakdown := classification_counts
      average_confidence := average_confidence
      weighted_total := some total_weight }

/-- Role-based base weights, the `role_weights` dictionary in
`FeedbackService._calculate_feedback_weight`. -/
def role_weights : UserRole → ℚ
  | .researcher => 1
  | .moderator => 12 / 10
  | .admin => 15 / 10

/-- `FeedbackService._calculate_feedback_weight`
(app/services/feedback_service.py, lines 151-176).  `user` is the row looked
up by id (`None` when absent); `previous_feedback_count` is the number of
feedback rows already authored by this user. -/
def calculate_feedback_weight (user : Option User)
    (previous_feedback_count : Nat) : ℚ :=
  match user with
  | none => 1
  | some u =>
    let base_weight := role_weights u.role
    let experience_multiplier : ℚ :=
      min (1 + (previous_feedback_count : ℚ) * (1 / 100)) 2
    base_weight * experience_multiplier

/-! ## Candidate records and the inference pipeline
(app/models/exoplanet.py, app/api/api_v1/endpoints/analysis.py) -/

/-- `AnalysisStatus` enum from app/models/exoplanet.py. -/
inductive AnalysisStatus where
  | pending
  | processing
  | completed
  | error
deriving DecidableEq, Repr

/-- `ExoplanetCandidate` row, restricted to the fields that the inference
pipeline reads and writes.  `upload_timestamp` is an abstract instant. -/
structure Candidate where
  id : Nat
  analysis_status : AnalysisStatus
  ai_prediction : Option String
  ai_confidence_score : Option ℚ
  upload_timestamp : Nat
deriving DecidableEq, Repr

/-- The candidates table, keyed by `Candidate.id`. -/
abbrev CandidateDb := List Candidate

/-- `ExoplanetService.get_candidate_by_id`: first row with the given id. -/
def get_candidate_by_id (db : CandidateDb) (cid : Nat) : Option Candidate :=
  db.find? (fun c => c.id = cid)

/-- `ExoplanetService.update_analysis_status`: set the status of the row with
the given id (no-op on the table when the id is absent, which the service
reports as a 404 instead). -/
def update_analysis_status (db : CandidateDb) (cid : Nat)
    (new_status : AnalysisStatus) : CandidateDb :=
  db.map (fun c => if c.id = cid then { c with analysis_status := new_status } else c)

/-- `ExoplanetService.update_ai_prediction`: store prediction and confidence
and set status to `completed` on the row with the given id. -/
def update_ai_prediction (db : CandidateDb) (cid : Nat)
    (prediction : String) (confidence : ℚ) : CandidateDb :=
  db.map (fun c =>
    if c.id = cid then
      { c with
        ai_prediction := some prediction
        ai_confidence_score := some confidence
        analysis_status := .completed }
    else c)

/-- `PredictionResponse` schema from app/schemas/exoplanet.py.  `prediction`
and `confidence_score` hold the attribute values the endpoint passes in, which
for a stored candidate may be null. -/
structure PredictionResponse where
  candidate_id : Nat
  prediction : Option String
  confidence_score : Option ℚ
  analysis_timestamp : Nat
deriving DecidableEq, Repr

/-- Outcome of one call to the `analyze_candidate` endpoint: the HTTP-level
result, the candidates table after the synchronous part of the call, and
whether a background prediction task was enqueued. -/
structure AnalyzeResult where
  response : Except Nat PredictionResponse
  db : CandidateDb
  task_enqueued : Bool
deriving Repr

/-- `analyze_candidate` endpoint (app/api/api_v1/endpoints/analysis.py,
lines 20-59): 404 when the candidate is unknown; when the candidate is already
`completed`, return the stored prediction unchanged and enqueue nothing;
otherwise flip the status to `processing`, enqueue the background prediction
task and answer with a `PROCESSING` placeholder stamped `now`. -/
def analyze_candidate (db : CandidateDb) (now : Nat) (cid : Nat) : AnalyzeResult :=
  match get_candidate_by_id db cid with
  | none => { response := .error 404, db := db, task_enqueued := false }
  | some candidate =>
    if candidate.analysis_status = .completed then
      { response := .ok
          { candidate_id := cid
            prediction := candidate.ai_prediction
            confidence_score := candidate.ai_confidence_score
            analysis_timestamp := candidate.upload_timestamp }
        db := db
        task_enqueued := false }
    else
      { response := .ok
          { candidate_id := cid
            prediction := some "PROCESSING"
            confidence_score := some 0
            analysis_timestamp := now }
        db := update_analysis_status db cid .processing
        task_enqueued := true }

/-! ### Bulk inference (run_bulk_ml_prediction) -/

/-- Running counters of `run_bulk_ml_prediction`. -/
structure BulkCounters where
  total_processed : Nat
  total_successful : Nat
  total_errors : Nat
deriving DecidableEq, Repr

/-- Environment of one bulk run: the outcome of
`ml_model.batch_predict` on the chunk built from the fetched candidate ids
(`Except.error` models the chunk-level exception), and which per-row
`update_ai_prediction` calls raise (the per-row exception). -/
structure BulkEnv where
  batchPredict : List Nat → Except Unit (List (String × ℚ))
  updateFails : Nat → Bool

/-- Fuel-driven worker for `chunksOf`; for a positive chunk size, fuel equal
to the list length is always enough because every step consumes at least one
element. -/
def chunksOfGo (n : Nat) : Nat → List α → List (List α)
  | _, [] => []
  | 0, _ :: _ => []
  | fuel + 1, l@(_ :: _) => l.take n :: chunksOfGo n fuel (l.drop n)

/-- Split a list into consecutive chunks of `n` (the
`for i in range(0, len(candidate_ids), batch_size)` slicing; `n` is the
positive constant `batch_size = 100` at the call site). -/
def chunksOf (n : Nat) (l : List α) : List (List α) :=
  chunksOfGo n l.length l

/-- Per-row update loop of a successfully predicted chunk: on a row whose
`update_ai_prediction` raises, the `except` branch marks only that row
`error` and bumps `total_errors`; otherwise the row is stored `completed`
and `total_successful` is bumped. -/
def applyChunkPredictions (env : BulkEnv)
    (acc : CandidateDb × BulkCounters) (row : Nat × (String × ℚ)) :
    CandidateDb × BulkCounters :=
  let (db, counters) := acc
  let (cid, pred) := row
  if env.updateFails cid then
    (update_analysis_status db cid .error,
     { counters with total_errors := counters.total_errors + 1 })
  else
    (update_ai_prediction db cid pred.1 pred.2,
     { counters with total_successful := counters.total_successful + 1 })

/-- One iteration of the chunk loop of `run_bulk_ml_prediction`
(app/api/api_v1/endpoints/analysis.py, lines 309-364).  `batch_ids` is the
slice of candidate ids; the fetched rows are the ids present in the table,
in table order.  An empty fetch `continue`s before any counter is touched.
On a chunk-level `batch_predict` exception every id of the slice is marked
`error` and — the increment sits inside the per-id loop — `total_errors`
grows by `len(batch_ids)` once per id. -/
def processChunk (env : BulkEnv)
    (acc : CandidateDb × BulkCounters) (batch_ids : List Nat) :
    CandidateDb × BulkCounters :=
  let (db, counters) := acc
  let fetched : List Nat :=
    (db.filter (fun c => batch_ids.contains c.id)).map (·.id)
  if fetched = [] then
    (db, counters)
  else
    match env.batchPredict fetched with
    | .ok predictions =>
      let (db1, counters1) :=
        (fetched.zip predictions).foldl (applyChunkPredictions env) (db, counters)
      (db1, { counters1 with
                total_processed := counters1.total_processed + batch_ids.length })
    | .error _ =>
      let db1 := batch_ids.foldl
        (fun d cid => update_analysis_status d cid .error) db
      (db1,
       { counters with
           total_errors :=
             counters.total_errors + batch_ids.length * batch_ids.length
           total_processed := counters.total_processed + batch_ids.length })

/-- `run_bulk_ml_prediction` (app/api/api_v1/endpoints/analysis.py,
lines 294-377): process the candidate ids in chunks of 100, carrying the
table and the running counters across chunks. -/
def run_bulk_ml_prediction (env : BulkEnv) (db : CandidateDb)
    (candidate_ids : List Nat) : CandidateDb × BulkCounters :=
  (chunksOf 100 candidate_ids).foldl (processChunk env)
    (db, { total_processed := 0, total_successful := 0, total_errors := 0 })

/-! ## ML model handler (app/ml/model_handler.py) -/

/-- `ExoplanetMLModel.feature_columns`: the 21 features the trained model
expects, in training order. -/
def feature_columns : List String :=
  ["koi_score", "koi_fpflag_nt", "koi_fpflag_ss", "koi_fpflag_co",
   "koi_fpflag_ec", "koi_period", "koi_time0bk", "koi_impact",
   "koi_duration", "koi_depth", "koi_prad", "koi_teq", "koi_insol",
   "koi_model_snr", "koi_tce_plnt_num", "koi_steff", "koi_slogg",
   "koi_srad", "ra", "dec", "koi_kepmag"]

/-- The four boolean-like flag columns (`flag_columns` in both
`preprocess_data` and `validate_input_format`). -/
def flag_columns : List String :=
  ["koi_fpflag_ss", "koi_fpflag_co", "koi_fpflag_nt", "koi_fpflag_ec"]

/-- `optional_columns` in `validate_input_format`: the columns that may be
absent because the preprocessor can fill them with defaults. -/
def optional_columns : List String :=
  flag_columns ++
  ["koi_impact", "koi_duration", "koi_depth", "koi_prad", "koi_insol",
   "koi_steff", "koi_slogg", "koi_srad", "dec"]

/-- The `default_values` dictionary of `preprocess_data`, read through
`default_values.get(col, 0.0)`. -/
def default_values : String → ℚ
  | "koi_period" => 10
  | "koi_time0bk" => 131
  | "koi_impact" => 1 / 2
  | "koi_duration" => 3
  | "koi_depth" => 100
  | "koi_prad" => 2
  | "koi_teq" => 1000
  | "koi_insol" => 1000
  | "koi_model_snr" => 10
  | "koi_tce_plnt_num" => 1
  | "koi_steff" => 5000
  | "koi_slogg" => 4
  | "koi_srad" => 1
  | "ra" => 180
  | "dec" => 0
  | "koi_kepmag" => 14
  | "koi_score" => 1 / 2
  | _ => 0

/-- A pandas DataFrame as the handler sees it: a column-oriented table.
Each column is a name paired with one optional value per row (None/NaN
modelled as `none`); all columns have `nrows` entries. -/
structure DataFrame where
  nrows : Nat
  cols : List (String × List (Option ℚ))
deriving DecidableEq, Repr

/-- Column lookup by name (`col in df.columns` / `df[col]`). -/
def DataFrame.col? (df : DataFrame) (c : String) : Option (List (Option ℚ)) :=
  df.cols.lookup c

/-- `ExoplanetMLModel.validate_input_format` (app/ml/model_handler.py,
lines 178-197): compute the expected columns absent from the frame; the
check fails exactly when one of them is outside `optional_columns`.  The
values stored in a column are never inspected. -/
def validate_input_format (df : DataFrame) : Bool :=
  let missing_columns :=
    feature_columns.filter (fun c => (df.col? c).isNone)
  let critical_missing :=
    missing_columns.filter (fun c => !(optional_columns.contains c))
  critical_missing.isEmpty

/-- The `feature_df[col] = 0` loop of `preprocess_data`: append an all-zero
column for each flag column that the frame lacks. -/
def addMissingFlags (df : DataFrame) : DataFrame :=
  { df with
    cols := df.cols ++
      (flag_columns.filter (fun c => (df.col? c).isNone)).map
        (fun c => (c, List.replicate df.nrows (some 0))) }

/-- The `feature_df = feature_df[self.feature_columns]` selection: re-index
the frame to exactly the expected columns.  pandas raises a `KeyError`
(wrapped into the handler's `ValueError`) when any expected column is still
absent; the error carries such a column's name. -/
def selectFeatures (df : DataFrame) : Except String (List (String × List (Option ℚ))) :=
  match feature_columns.filter (fun c => (df.col? c).isNone) with
  | [] => .ok (feature_columns.map (fun c => (c, (df.col? c).getD [])))
  | c :: _ => .error c

/-- `pandas.Series.median` over the non-null values of a column: middle of
the sorted values, or the mean of the two middles for an even count. -/
def median (xs : List ℚ) : ℚ :=
  let s := xs.mergeSort (· ≤ ·)
  let n := s.length
  if n % 2 = 1 then s.getD (n / 2) 0
  else (s.getD (n / 2 - 1) 0 + s.getD (n / 2) 0) / 2

/-- The missing-value handling of `preprocess_data` for one selected column:
flag columns are `fillna(0)`; a numerical column with at least one non-null
value is `fillna(median)`; an entirely-null numerical column is
`fillna(default_values.get(col, 0.0))`. -/
def fillColumn (c : String) (vals : List (Option ℚ)) : List ℚ :=
  if flag_columns.contains c then
    vals.map (fun v => v.getD 0)
  else
    let present := vals.filterMap id
    if present.isEmpty then
      vals.map (fun v => v.getD (default_values c))
    else
      vals.map (fun v => v.getD (median present))

/-- `ExoplanetMLModel.preprocess_data` (app/ml/model_handler.py,
lines 53-119): synthesize missing flag columns, select the expected columns
(raising when a non-flag column is absent), fill missing values, then apply
the fitted scaler when one is loaded (`self.scaler is not None`). -/
def preprocess_data
    (scaler : Option (List (String × List ℚ) → List (String × List ℚ)))
    (df : DataFrame) : Except String (List (String × List ℚ)) := do
  let selected ← selectFeatures (addMissingFlags df)
  let filled := selected.map (fun p => (p.1, fillColumn p.1 p.2))
  match scaler with
  | some transform => return transform filled
  | none => return filled

/-! ### Confidence extraction (predict / batch_predict) -/

/-- The capability probed by the confidence-extraction code for one row:
either the model exposes per-class probabilities (`predict_proba`, giving
the row's probability vector), or a decision margin (`decision_function`),
or neither. -/
inductive ConfSource where
  | proba (rowProbs : List ℚ)
  | margin (score : ℚ)
  | plain
deriving DecidableEq, Repr

/-- `np.max` over a row of class probabilities (defined as 0 on the empty
row, which a real probability vector never is). -/
def maxProb : List ℚ → ℚ
  | [] => 0
  | p :: ps => ps.foldl max p

/-- The confidence-extraction policy shared by `ExoplanetMLModel.predict`
(lines 136-148) and `batch_predict` (lines 213-221), for one row.  `exp`
models `np.exp` (any model of the real exponential; its positivity is all
the bound needs):  max class probability, else `1 / (1 + exp(-|score|))`,
else the fixed default 0.8. -/
def extract_confidence (exp : ℚ → ℚ) : ConfSource → ℚ
  | .proba ps => maxProb ps
  | .margin score => 1 / (1 + exp (-|score|))
  | .plain => 8 / 10

/-- Batch confidence extraction: `batch_predict` computes the same formula
elementwise over the rows of the chunk. -/
def batch_confidences (exp : ℚ → ℚ) (rows : List ConfSource) : List ℚ :=
  rows.map (extract_confidence exp)

/-- `prediction_map.get(pred, f"UNKNOWN({pred})")`: raw model outputs may be
class ids or strings. -/
inductive RawPrediction where
  | classId (n : Int)
  | label (s : String)
deriving DecidableEq, Repr

/-- The label lookup shared by `predict` and `batch_predict`. -/
def prediction_map : RawPrediction → String
  | .classId 0 => "FALSE POSITIVE"
  | .classId 1 => "CONFIRMED"
  | .classId 2 => "CANDIDATE"
  | .classId n => "UNKNOWN(" ++ toString n ++ ")"
  | .label "FALSE POSITIVE" => "FALSE POSITIVE"
  | .label "CONFIRMED" => "CONFIRMED"
  | .label "CANDIDATE" => "CANDIDATE"
  | .label s => "UNKNOWN(" ++ s ++ ")"

/-- A probability row is valid when it is nonempty with every entry in
[0, 1]; margin and default rows need nothing. -/
def ValidConfSource : ConfSource → Prop
  | .proba ps => ps ≠ [] ∧ ∀ p ∈ ps, 0 ≤ p ∧ p ≤ 1
  | .margin _ => True
  | .plain => True

/-! ## Feedback CRUD (app/services/feedback_service.py, app/schemas/feedback.py) -/

/-- `ResearcherFeedbackCreate` schema (app/schemas/feedback.py). -/
structure ResearcherFeedbackCreate where
  candidate_id : Nat
  expert_classification : String
  detailed_reasoning : String
  confidence_score : ℚ
  agrees_with_ai : Option Bool := none
  supporting_data_references : Option String := none
  methodology_description : Option String := none
  time_spent_on_analysis : Option Int := none
  tools_used : Option String := none
deriving DecidableEq, Repr

/-- `ResearcherFeedbackUpdate` schema (app/schemas/feedback.py, lines 38-60).
Every field is optional; the outer `Option` is pydantic's set/unset flag
(`exclude_unset=True`), the inner one the field's own nullability.  The
schema has no `feedback_weight` field. -/
structure ResearcherFeedbackUpdate where
  expert_classification : Option String := none
  detailed_reasoning : Option String := none
  confidence_score : Option ℚ := none
  agrees_with_ai : Option (Option Bool) := none
  supporting_data_references : Option (Option String) := none
  methodology_description : Option (Option String) := none
  time_spent_on_analysis : Option (Option Int) := none
  tools_used : Option (Option String) := none
deriving DecidableEq, Repr

/-- The `setattr` loop of `FeedbackService.update_feedback`: overwrite
exactly the fields present in `feedback_update.dict(exclude_unset=True)`. -/
def applyUpdate (fb : ResearcherFeedback) (u : ResearcherFeedbackUpdate) :
    ResearcherFeedback :=
  { fb with
    expert_classification := u.expert_classification.getD fb.expert_classification
    detailed_reasoning := u.detailed_reasoning.getD fb.detailed_reasoning
    confidence_score := u.confidence_score.getD fb.confidence_score
    agrees_with_ai := u.agrees_with_ai.getD fb.agrees_with_ai
    supporting_data_references :=
      u.supporting_data_references.getD fb.supporting_data_references
    methodology_description :=
      u.methodology_description.getD fb.methodology_description
    time_spent_on_analysis :=
      u.time_spent_on_analysis.getD fb.time_spent_on_analysis
    tools_used := u.tools_used.getD fb.tools_used }

/-- The researcher_feedback table. -/
abbrev FeedbackDb := List ResearcherFeedback

/-- `FeedbackService.create_feedback` (app/services/feedback_service.py,
lines 13-39): reject with 400 when this user already has feedback for this
candidate, leaving the table untouched; otherwise compute the weight from
the user's role and current feedback count and insert the new row (with
fresh primary key `new_id`). -/
def create_feedback (db : FeedbackDb) (users : List User)
    (feedback_data : ResearcherFeedbackCreate) (user_id : Nat) (new_id : Nat) :
    Except Nat ResearcherFeedback × FeedbackDb :=
  let existing_feedback := db.find? (fun fb =>
    fb.candidate_id = feedback_data.candidate_id && fb.researcher_id = user_id)
  match existing_feedback with
  | some _ => (.error 400, db)
  | none =>
    let feedback_weight := calculate_feedback_weight
      (users.find? (fun u => u.id = user_id))
      (db.countP (fun fb => fb.researcher_id = user_id))
    let db_feedback : ResearcherFeedback :=
      { id := new_id
        candidate_id := feedback_data.candidate_id
        researcher_id := user_id
        expert_classification := feedback_data.expert_classification
        detailed_reasoning := feedback_data.detailed_reasoning
        confidence_score := feedback_data.confidence_score
        agrees_with_ai := feedback_data.agrees_with_ai
        feedback_weight := feedback_weight
        supporting_data_references := feedback_data.supporting_data_references
        methodology_description := feedback_data.methodology_description
        time_spent_on_analysis := feedback_data.time_spent_on_analysis
        tools_used := feedback_data.tools_used }
    (.ok db_feedback, db ++ [db_feedback])

/-- `FeedbackService.update_feedback` (app/services/feedback_service.py,
lines 59-86): 404 when the id is unknown, 403 when the caller does not own
the entry — both leave the table untouched; otherwise apply exactly the set
fields of the update to the entry. -/
def update_feedback (db : FeedbackDb) (feedback_id : Nat)
    (feedback_update : ResearcherFeedbackUpdate) (user_id : Nat) :
    Except Nat ResearcherFeedback × FeedbackDb :=
  match db.find? (fun fb => fb.id = feedback_id) with
  | none => (.error 404, db)
  | some feedback =>
    if feedback.researcher_id ≠ user_id then (.error 403, db)
    else
      (.ok (applyUpdate feedback feedback_update),
       db.map (fun fb =>
         if fb.id = feedback_id then applyUpdate fb feedback_update else fb))

/-! ## Researcher statistics -/

/-- `FeedbackService.get_feedback_by_researcher`
(app/services/feedback_service.py, lines 53-57): the researcher's rows,
paginated with `offset(skip).limit(limit)`. -/
def get_feedback_by_researcher (db : FeedbackDb) (researcher_id : Nat)
    (skip : Nat) (limit : Nat) : List ResearcherFeedback :=
  ((db.filter (fun fb => fb.researcher_id = researcher_id)).drop skip).take limit

/-- Result dictionary of `get_researcher_statistics`. -/
structure ResearcherStats where
  total_feedback : Nat
  average_confidence : ℚ
  classification_breakdown : List (String × Nat)
  ai_agreement_rate : ℚ
deriving DecidableEq, Repr

/-- `FeedbackService.get_researcher_statistics`
(app/services/feedback_service.py, lines 178-213): statistics over the rows
returned by `get_feedback_by_researcher(researcher_id, limit=1000)` (so over
at most the first 1000 rows). -/
def get_researcher_statistics (db : FeedbackDb) (researcher_id : Nat) :
    ResearcherStats :=
  let feedback_list := get_feedback_by_researcher db researcher_id 0 1000
  if feedback_list = [] then
    { total_feedback := 0
      average_confidence := 0
      classification_breakdown := []
      ai_agreement_rate := 0 }
  else
    let total_feedback := feedback_list.length
    let average_confidence : ℚ :=
      (feedback_list.map (·.confidence_score)).sum / total_feedback
    let classification_counts :=
      feedback_list.foldl (fun m fb => bumpLabel m fb.expert_classification) []
    let ai_agreements : Nat :=
      feedback_list.countP (fun fb => truthy fb.agrees_with_ai)
    { total_feedback := total_feedback
      average_confidence := average_confidence
      classification_breakdown := classification_counts
      ai_agreement_rate := (ai_agreements : ℚ) / total_feedback }

/-! ## Concrete inputs used by witnesses and counterexamples -/

/-- A sample entry used to exercise the statistics truncation. -/
def fbSample : ResearcherFeedback :=
  { id := 1, candidate_id := 7, researcher_id := 1,
    expert_classification := "CONFIRMED", detailed_reasoning := "r",
    confidence_score := 4 / 5, agrees_with_ai := some true,
    feedback_weight := 1 }

/-- A one-row frame with every expected column present and the critical
koi_period column entirely null. -/
def dfPeriodAllNull : DataFrame :=
  { nrows := 1
    cols := feature_columns.map (fun c =>
      (c, [if c = "koi_period" then none else some 1])) }

/-- A one-row frame with the optional (non-flag) koi_impact column absent
and every other expected column present. -/
def dfNoImpact : DataFrame :=
  { nrows := 1
    cols := (feature_columns.filter (fun c => !(c = "koi_impact" : Bool))).map
      (fun c => (c, [some 1])) }

/-- A one-row frame with the critical koi_period column absent and every
other expected column present. -/
def dfNoPeriod : DataFrame :=
  { nrows := 1
    cols := (feature_columns.filter (fun c => !(c = "koi_period" : Bool))).map
      (fun c => (c, [some 1])) }

/-- A one-row frame with every expected column present and the numeric
koi_steff column entirely null. -/
def dfSteffNull : DataFrame :=
  { nrows := 1
    cols := feature_columns.map (fun c =>
      (c, [if c = "koi_steff" then none else some 1])) }

/-- A two-row candidates table, both rows already flipped to `processing` by
the synchronous part of the bulk endpoint. -/
def bulkDb : CandidateDb :=
  [{ id := 1, analysis_status := .processing, ai_prediction := none,
     ai_confidence_score := none, upload_timestamp := 0 },
   { id := 2, analysis_status := .processing, ai_prediction := none,
     ai_confidence_score := none, upload_timestamp := 0 }]

/-- A bulk environment whose chunk-level `batch_predict` always raises. -/
def envChunkFail : BulkEnv :=
  { batchPredict := fun _ => .error (), updateFails := fun _ => false }

/-- A bulk environment that predicts CONFIRMED at 0.9 for every row but
whose per-row `update_ai_prediction` raises for candidate 1 only. -/
def envRowFail : BulkEnv :=
  { batchPredict := fun ids => .ok (ids.map (fun _ => ("CONFIRMED", (9 : ℚ) / 10)))
    updateFails := fun cid => cid == 1 }

/-! ## Helper lemmas -/

/-- In a list of nonnegative rationals summing to zero, every element is
zero. -/
theorem eq_zero_of_mem_of_sum_eq_zero {l : List ℚ}
    (h0 : ∀ x ∈ l, 0 ≤ x) (hs : l.sum = 0) : ∀ x ∈ l, x = 0 := by
  induction l with
  | nil => simp
  | cons a t ih =>
    have ha : 0 ≤ a := h0 a (List.mem_cons_self a t)
    have ht : 0 ≤ t.sum :=
      List.sum_nonneg (fun x hx => h0 x (List.mem_cons_of_mem a hx))
    have hsum : a + t.sum = 0 := by simpa using hs
    have ha0 : a = 0 := by linarith
    have hts : t.sum = 0 := by linarith
    intro x hx
    rcases List.mem_cons.mp hx with h | h
    · exact h.trans ha0
    · exact ih (fun y hy => h0 y (List.mem_cons_of_mem a hy)) hts x h

/-- Bumping label `c` changes exactly the count of `c`, by one. -/
theorem labelCount_bumpLabel (m : List (String × Nat)) (c c' : String) :
    labelCount (bumpLabel m c) c' = labelCount m c' + (if c = c' then 1 else 0) := by
  induction m with
  | nil =>
    by_cases h : c = c' <;> simp [bumpLabel, labelCount, h]
  | cons p rest ih =>
    obtain ⟨k, v⟩ := p
    by_cases hk : k = c
    · subst hk
      by_cases h : k = c' <;> simp [bumpLabel, labelCount, h]
    · by_cases h : k = c'
      · subst h
        have hc : ¬ c = k := fun hcc => hk hcc.symm
        simp [bumpLabel, labelCount, hk, hc]
      · simp [bumpLabel, labelCount, hk, h, ih]

/-- The dictionary-building fold counts entries per classification label. -/
theorem labelCount_foldl_bump (l : List ResearcherFeedback)
    (m : List (String × Nat)) (c : String) :
    labelCount (l.foldl (fun acc fb => bumpLabel acc fb.expert_classification) m) c
      = labelCount m c + l.countP (fun fb => fb.expert_classification = c) := by
  induction l generalizing m with
  | nil => simp
  | cons fb t ih =>
    simp only [List.foldl_cons, List.countP_cons, ih, labelCount_bumpLabel]
    by_cases h : fb.expert_classification = c
    · simp [h]
      omega
    · simp [h]

/-- Python truthiness of `agrees_with_ai` coincides with being literally
`True`. -/
theorem truthy_eq (x : Option Bool) : truthy x = decide (x = some true) := by
  rcases x with _ | b
  · rfl
  · cases b <;> rfl

/-! ## C1 and C2: consensus engine -/

/-- C1: for every list of feedback entries (with the nonnegative weights the
data model guarantees), `calculate_consensus_score` returns the weighted
confidence mean as consensus score, the length as total, the fraction of
entries whose `agrees_with_ai` is literally true (nulls in the denominator
only) as agreement rate, per-label counts as breakdown, and the unweighted
confidence mean; and on the empty list it returns all zeros and an empty
breakdown without erroring. -/
theorem C1_consensus_score_spec (entries : List ResearcherFeedback)
    (hw : ∀ fb ∈ entries, 0 ≤ fb.feedback_weight) :
    (calculate_consensus_score entries).consensus_score
        = (entries.map fun fb => fb.confidence_score * fb.feedback_weight).sum
            / (entries.map (·.feedback_weight)).sum
    ∧ (calculate_consensus_score entries).total_feedback = entries.length
    ∧ (calculate_consensus_score entries).agreement_rate
        = ((entries.countP fun fb => fb.agrees_with_ai = some true : Nat) : ℚ)
            / entries.length
    ∧ (∀ label,
        labelCount (calculate_consensus_score entries).classification_breakdown label
          = entries.countP fun fb => fb.expert_classification = label)
    ∧ (calculate_consensus_score entries).average_confidence
        = (entries.map (·.confidence_score)).sum / entries.length
    ∧ calculate_consensus_score []
        = { consensus_score := 0, total_feedback := 0, agreement_rate := 0,
            classification_breakdown := [], average_confidence := 0,
            weighted_total := none } := by
  have hcount : entries.countP (fun fb => truthy fb.agrees_with_ai)
      = entries.countP (fun fb => fb.agrees_with_ai = some true) := by
    apply List.countP_congr
    intro fb _
    simp [truthy_eq]
  by_cases hempty : entries = []
  · subst hempty
    refine ⟨by simp [calculate_consensus_score], rfl, by simp [calculate_consensus_score], ?_, by simp [calculate_consensus_score], rfl⟩
    intro label
    simp [calculate_consensus_score, labelCount]
  · have hscore : (calculate_consensus_score entries).consensus_score
        = (entries.map fun fb => fb.confidence_score * fb.feedback_weight).sum
            / (entries.map (·.feedback_weight)).sum := by
      simp only [calculate_consensus_score, if_neg hempty]
      by_cases hpos : 0 < (entries.map (·.feedback_weight)).sum
      · simp [hpos]
      · have hnn : 0 ≤ (entries.map (·.feedback_weight)).sum := by
          apply List.sum_nonneg
          intro x hx
          obtain ⟨fb, hfb, rfl⟩ := List.mem_map.mp hx
          exact hw fb hfb
        have hzero : (entries.map (·.feedback_weight)).sum = 0 := le_antisymm (not_lt.mp hpos) hnn
        have hwz : ∀ fb ∈ entries, fb.feedback_weight = 0 := by
          intro fb hfb
          exact eq_zero_of_mem_of_sum_eq_zero
            (fun x hx => by
              obtain ⟨g, hg, rfl⟩ := List.mem_map.mp hx
              exact hw g hg) hzero _ (List.mem_map_of_mem _ hfb)
        have hnum : (entries.map fun fb => fb.confidence_score * fb.feedback_weight).sum = 0 := by
          apply List.sum_eq_zero
          intro x hx
          obtain ⟨fb, hfb, rfl⟩ := List.mem_map.mp hx
          rw [hwz fb hfb, mul_zero]
        simp [hpos, hnum]
    refine ⟨hscore, ?_, ?_, ?_, ?_, rfl⟩
    · simp only [calculate_consensus_score, if_neg hempty]
    · simp only [calculate_consensus_score, if_neg hempty, hcount]
    · intro label
      simp only [calculate_consensus_score, if_neg hempty]
      have := labelCount_foldl_bump entries [] label
      simpa [labelCount] using this
    · simp only [calculate_consensus_score, if_neg hempty]

/-- Witness for C1 at a concrete two-entry list: an entry with confidence 0.9
and weight 1 and one with confidence 0.5 and weight 2 give consensus 19/30,
agreement rate 1/2 (one true, one null), and average confidence 7/10. -/
theorem C1_consensus_score_spec_witness :
    (calculate_consensus_score
        [{ id := 1, candidate_id := 7, researcher_id := 1,
           expert_classification := "CONFIRMED", detailed_reasoning := "r1",
           confidence_score := 9 / 10, agrees_with_ai := some true,
           feedback_weight := 1 },
         { id := 2, candidate_id := 7, researcher_id := 2,
           expert_classification := "CANDIDATE", detailed_reasoning := "r2",
           confidence_score := 1 / 2, agrees_with_ai := none,
           feedback_weight := 2 }]).consensus_score
      = ([(9 : ℚ) / 10 * 1, 1 / 2 * 2].sum) / ([(1 : ℚ), 2].sum)
    ∧ (calculate_consensus_score
        [{ id := 1, candidate_id := 7, researcher_id := 1,
           expert_classification := "CONFIRMED", detailed_reasoning := "r1",
           confidence_score := 9 / 10, agrees_with_ai := some true,
           feedback_weight := 1 },
         { id := 2, candidate_id := 7, researcher_id := 2,
           expert_classification := "CANDIDATE", detailed_reasoning := "r2",
           confidence_score := 1 / 2, agrees_with_ai := none,
           feedback_weight := 2 }]).agreement_rate = (1 : ℚ) / 2 := by
  have h := C1_consensus_score_spec
    [{ id := 1, candidate_id := 7, researcher_id := 1,
       expert_classification := "CONFIRMED", detailed_reasoning := "r1",
       confidence_score := 9 / 10, agrees_with_ai := some true,
       feedback_weight := 1 },
     { id := 2, candidate_id := 7, researcher_id := 2,
       expert_classification := "CANDIDATE", detailed_reasoning := "r2",
       confidence_score := 1 / 2, agrees_with_ai := none,
       feedback_weight := 2 }]
    (by intro fb hfb; fin_cases hfb <;> norm_num)
  refine ⟨by simpa using h.1, ?_⟩
  have := h.2.2.1
  rw [this]
  simp

/-- C2: the feedback weight of an existing user is the role base weight
(researcher 1.0, moderator 1.2, admin 1.5) times the experience multiplier
`min(1 + 0.01·n, 2)`; a moderator with no prior feedback gets 1.2, a
researcher with 150 prior entries gets 2.0, and no weight exceeds 3.0. -/
theorem C2_feedback_weight_formula (u : User) (n : Nat) :
    calculate_feedback_weight (some u) n
        = role_weights u.role * min (1 + (n : ℚ) * (1 / 100)) 2
    ∧ role_weights .researcher = 1
    ∧ role_weights .moderator = 12 / 10
    ∧ role_weights .admin = 15 / 10
    ∧ calculate_feedback_weight (some { id := u.id, role := .moderator }) 0 = 12 / 10
    ∧ calculate_feedback_weight (some { id := u.id, role := .researcher }) 150 = 2
    ∧ calculate_feedback_weight (some u) n ≤ 3 := by
  refine ⟨rfl, rfl, rfl, rfl, ?_, ?_, ?_⟩
  · show (12 : ℚ) / 10 * min (1 + (0 : ℚ) * (1 / 100)) 2 = 12 / 10
    norm_num
  · show (1 : ℚ) * min (1 + (150 : ℚ) * (1 / 100)) 2 = 2
    norm_num
  · have h1 : role_weights u.role ≤ 3 / 2 := by
      cases u.role <;> norm_num [role_weights]
    have h2 : min (1 + (n : ℚ) * (1 / 100)) 2 ≤ 2 := min_le_right _ _
    have h3 : (0 : ℚ) ≤ min (1 + (n : ℚ) * (1 / 100)) 2 := by
      apply le_min
      · positivity
      · norm_num
    calc calculate_feedback_weight (some u) n
        = role_weights u.role * min (1 + (n : ℚ) * (1 / 100)) 2 := rfl
      _ ≤ (3 / 2) * 2 := mul_le_mul h1 h2 h3 (by norm_num)
      _ = 3 := by norm_num

/-! ## C5: idempotence of the single-record trigger -/

/-- C5: triggering inference on a record whose `analysis_status` is already
`completed` returns the stored prediction and confidence, leaves the table
untouched, enqueues no background recomputation, and a second trigger
returns the same stored result. -/
theorem C5_completed_short_circuit (db : CandidateDb) (now now2 cid : Nat)
    (c : Candidate) (hc : get_candidate_by_id db cid = some c)
    (hs : c.analysis_status = .completed) :
    analyze_candidate db now cid =
      { response := .ok
          { candidate_id := cid
            prediction := c.ai_prediction
            confidence_score := c.ai_confidence_score
            analysis_timestamp := c.upload_timestamp }
        db := db
        task_enqueued := false }
    ∧ analyze_candidate (analyze_candidate db now cid).db now2 cid
        = analyze_candidate db now cid := by
  have h1 : analyze_candidate db now cid =
      { response := .ok
          { candidate_id := cid
            prediction := c.ai_prediction
            confidence_score := c.ai_confidence_score
            analysis_timestamp := c.upload_timestamp }
        db := db
        task_enqueued := false } := by
    simp [analyze_candidate, hc, hs]
  refine ⟨h1, ?_⟩
  rw [h1]
  simp [analyze_candidate, hc, hs]

/-- Witness for C5: a one-row table whose record 5 is completed with stored
prediction CONFIRMED at confidence 0.9. -/
theorem C5_completed_short_circuit_witness :
    analyze_candidate
        [{ id := 5, analysis_status := .completed,
           ai_prediction := some "CONFIRMED",
           ai_confidence_score := some (9 / 10), upload_timestamp := 42 }] 100 5 =
      { response := .ok
          { candidate_id := 5
            prediction := some "CONFIRMED"
            confidence_score := some (9 / 10)
            analysis_timestamp := 42 }
        db := [{ id := 5, analysis_status := .completed,
                 ai_prediction := some "CONFIRMED",
                 ai_confidence_score := some (9 / 10), upload_timestamp := 42 }]
        task_enqueued := false }
    ∧ analyze_candidate
        (analyze_candidate
          [{ id := 5, analysis_status := .completed,
             ai_prediction := some "CONFIRMED",
             ai_confidence_score := some (9 / 10), upload_timestamp := 42 }] 100 5).db
        200 5
      = analyze_candidate
          [{ id := 5, analysis_status := .completed,
             ai_prediction := some "CONFIRMED",
             ai_confidence_score := some (9 / 10), upload_timestamp := 42 }] 100 5 :=
  C5_completed_short_circuit _ 100 200 5
    { id := 5, analysis_status := .completed,
      ai_prediction := some "CONFIRMED",
      ai_confidence_score := some (9 / 10), upload_timestamp := 42 }
    (by rfl) (by rfl)

/-! ## C6: duplicate feedback rejection -/

/-- C6: when the same expert already has a feedback entry for the candidate,
`create_feedback` rejects the new submission with a 400 validation error and
the table — in particular the first entry — is unchanged. -/
theorem C6_duplicate_feedback_rejected (db : FeedbackDb) (users : List User)
    (fd : ResearcherFeedbackCreate) (user_id new_id : Nat)
    (fb0 : ResearcherFeedback) (hfb : fb0 ∈ db)
    (hcand : fb0.candidate_id = fd.candidate_id)
    (hres : fb0.researcher_id = user_id) :
    (create_feedback db users fd user_id new_id).1 = .error 400
    ∧ (create_feedback db users fd user_id new_id).2 = db := by
  have hex : (db.find? (fun fb =>
      fb.candidate_id = fd.candidate_id && fb.researcher_id = user_id)).isSome := by
    rw [List.find?_isSome]
    exact ⟨fb0, hfb, by simp [hcand, hres]⟩
  obtain ⟨x, hx⟩ := Option.isSome_iff_exists.mp hex
  constructor <;> simp [create_feedback, hx]

/-- Witness for C6: researcher 3 already has feedback on candidate 7; a
second submission is rejected and the table is unchanged. -/
theorem C6_duplicate_feedback_rejected_witness :
    (create_feedback
        [{ id := 1, candidate_id := 7, researcher_id := 3,
           expert_classification := "CONFIRMED", detailed_reasoning := "r",
           confidence_score := 4 / 5, agrees_with_ai := some true,
           feedback_weight := 1 }]
        [{ id := 3, role := .researcher }]
        { candidate_id := 7, expert_classification := "CANDIDATE",
          detailed_reasoning := "again", confidence_score := 1 / 2 } 3 2).1
      = .error 400
    ∧ (create_feedback
        [{ id := 1, candidate_id := 7, researcher_id := 3,
           expert_classification := "CONFIRMED", detailed_reasoning := "r",
           confidence_score := 4 / 5, agrees_with_ai := some true,
           feedback_weight := 1 }]
        [{ id := 3, role := .researcher }]
        { candidate_id := 7, expert_classification := "CANDIDATE",
          detailed_reasoning := "again", confidence_score := 1 / 2 } 3 2).2
      = [{ id := 1, candidate_id := 7, researcher_id := 3,
           expert_classification := "CONFIRMED", detailed_reasoning := "r",
           confidence_score := 4 / 5, agrees_with_ai := some true,
           feedback_weight := 1 }] :=
  C6_duplicate_feedback_rejected _ _ _ 3 2
    { id := 1, candidate_id := 7, researcher_id := 3,
      expert_classification := "CONFIRMED", detailed_reasoning := "r",
      confidence_score := 4 / 5, agrees_with_ai := some true,
      feedback_weight := 1 }
    (by simp) (by rfl) (by rfl)

/-! ## C9: edits never touch the stored weight -/

/-- C9: `update_feedback` never changes any entry's `feedback_weight`: the
weights column of the table is identical before and after the call, in the
404 branch, the 403 branch and the successful edit alike (the update schema
has no weight field, and no recalculation happens on edit). -/
theorem C9_update_preserves_weights (db : FeedbackDb) (feedback_id : Nat)
    (u : ResearcherFeedbackUpdate) (user_id : Nat) :
    ((update_feedback db feedback_id u user_id).2).map (·.feedback_weight)
      = db.map (·.feedback_weight) := by
  unfold update_feedback
  cases hf : db.find? (fun fb => fb.id = feedback_id) with
  | none => rfl
  | some fb =>
    by_cases h : fb.researcher_id ≠ user_id
    · simp [h]
    · simp only [h, if_false, List.map_map]
      apply List.map_congr_left
      intro a _
      by_cases ha : a.id = feedback_id <;> simp [ha, applyUpdate, Function.comp]

/-! ## C10: researcher statistics are computed over at most 1000 entries -/

/-- Truthiness counting rewritten as counting literal `True` values. -/
theorem countP_truthy (l : List ResearcherFeedback) :
    l.countP (fun fb => truthy fb.agrees_with_ai)
      = l.countP (fun fb => fb.agrees_with_ai = some true) := by
  apply List.countP_congr
  intro fb _
  simp [truthy_eq]

/-- C10: `get_researcher_statistics` reads at most the first 1000 of the
expert's entries (`limit=1000`); with more than 1000 entries the reported
total is 1000, the result coincides with the statistics of the truncated
list, and all four statistics are the corresponding functions of that
truncated list only. -/
theorem C10_researcher_stats_truncation (db : FeedbackDb) (rid : Nat)
    (h : 1000 < (db.filter (fun fb => fb.researcher_id = rid)).length) :
    (get_researcher_statistics db rid).total_feedback = 1000
    ∧ get_researcher_statistics db rid
        = get_researcher_statistics
            ((db.filter (fun fb => fb.researcher_id = rid)).take 1000) rid
    ∧ (get_researcher_statistics db rid).average_confidence
        = ((((db.filter (fun fb => fb.researcher_id = rid)).take 1000).map
              (·.confidence_score)).sum) / 1000
    ∧ (get_researcher_statistics db rid).ai_agreement_rate
        = ((((db.filter (fun fb => fb.researcher_id = rid)).take 1000).countP
              (fun fb => fb.agrees_with_ai = some true) : Nat) : ℚ) / 1000
    ∧ ∀ label,
        labelCount (get_researcher_statistics db rid).classification_breakdown label
          = ((db.filter (fun fb => fb.researcher_id = rid)).take 1000).countP
              (fun fb => fb.expert_classification = label) := by
  set fl := db.filter (fun fb => fb.researcher_id = rid) with hfl
  have hlist : get_feedback_by_researcher db rid 0 1000 = fl.take 1000 := by
    simp [get_feedback_by_researcher, hfl]
  have hlen : (fl.take 1000).length = 1000 := by
    rw [List.length_take]
    omega
  have hne : ¬ (fl.take 1000 = []) := by
    intro hnil
    rw [hnil] at hlen
    simp at hlen
  have hfl2 : (fl.take 1000).filter (fun fb => fb.researcher_id = rid)
      = fl.take 1000 := by
    rw [List.filter_eq_self]
    intro a ha
    have ha2 : a ∈ fl := List.mem_of_mem_take ha
    rw [hfl] at ha2
    exact (List.mem_filter.mp ha2).2
  have hlist2 : get_feedback_by_researcher (fl.take 1000) rid 0 1000
      = fl.take 1000 := by
    simp [get_feedback_by_researcher, hfl2, List.take_take]
  have hstats : get_researcher_statistics db rid =
      { total_feedback := (fl.take 1000).length
        average_confidence :=
          ((fl.take 1000).map (·.confidence_score)).sum / ((fl.take 1000).length : ℚ)
        classification_breakdown :=
          (fl.take 1000).foldl (fun m fb => bumpLabel m fb.expert_classification) []
        ai_agreement_rate :=
          (((fl.take 1000).countP (fun fb => truthy fb.agrees_with_ai) : Nat) : ℚ)
            / ((fl.take 1000).length : ℚ) } := by
    simp only [get_researcher_statistics, hlist, if_neg hne]
  have hstats2 : get_researcher_statistics (fl.take 1000) rid
      = get_researcher_statistics db rid := by
    rw [hstats]
    simp only [get_researcher_statistics, hlist2, if_neg hne]
  refine ⟨?_, hstats2.symm, ?_, ?_, ?_⟩
  · rw [hstats]
    exact hlen
  · rw [hstats]
    simp [hlen]
  · rw [hstats]
    simp [hlen, countP_truthy]
  · intro label
    rw [hstats]
    have := labelCount_foldl_bump (fl.take 1000) [] label
    simpa [labelCount] using this

/-- Witness for C10 at a 1001-entry table authored by researcher 1: the
reported total is 1000. -/
theorem C10_researcher_stats_truncation_witness :
    1000 < ((List.replicate 1001 fbSample).filter
              (fun fb => fb.researcher_id = 1)).length
    ∧ (get_researcher_statistics (List.replicate 1001 fbSample) 1).total_feedback
        = 1000 := by
  have hlen : ((List.replicate 1001 fbSample).filter
      (fun fb => fb.researcher_id = 1)).length = 1001 := by
    rw [List.filter_replicate, if_pos (by rfl)]
    exact List.length_replicate 1001 fbSample
  refine ⟨by rw [hlen]; norm_num, ?_⟩
  exact (C10_researcher_stats_truncation (List.replicate 1001 fbSample) 1
    (by rw [hlen]; norm_num)).1

/-! ## Lookup lemmas for the DataFrame embedding -/

/-- Looking up a key present in a keyed `map` image finds its image. -/
theorem lookup_map_pair {β : Type} (g : String → β) (c : String)
    (l : List String) (hc : c ∈ l) :
    (l.map (fun x => (x, g x))).lookup c = some (g c) := by
  induction l with
  | nil => cases hc
  | cons a t ih =>
    by_cases h : c = a
    · subst h
      simp [List.lookup]
    · have hb : (c == a) = false := beq_eq_false_iff_ne.mpr h
      rcases List.mem_cons.mp hc with h2 | h2
      · exact absurd h2 h
      · simp only [List.map_cons, List.lookup, hb]
        exact ih h2

/-- Looking up a key absent from a keyed `map` image finds nothing. -/
theorem lookup_map_pair_none {β : Type} (g : String → β) (c : String)
    (l : List String) (hc : c ∉ l) :
    (l.map (fun x => (x, g x))).lookup c = none := by
  induction l with
  | nil => rfl
  | cons a t ih =>
    have h : ¬ c = a := fun hh => hc (hh ▸ List.mem_cons_self a t)
    have hb : (c == a) = false := beq_eq_false_iff_ne.mpr h
    simp only [List.map_cons, List.lookup, hb]
    exact ih (fun hm => hc (List.mem_cons_of_mem a hm))

/-- A column present in the frame is untouched by flag synthesis. -/
theorem addMissingFlags_col_some (df : DataFrame) (c : String)
    (vals : List (Option ℚ)) (h : df.col? c = some vals) :
    (addMissingFlags df).col? c = some vals := by
  have h2 : df.cols.lookup c = some vals := h
  show ((df.cols ++ _).lookup c) = some vals
  rw [List.lookup_append, h2]
  rfl

/-- A non-flag column absent from the frame is still absent after flag
synthesis. -/
theorem addMissingFlags_col_none (df : DataFrame) (c : String)
    (hflag : c ∉ flag_columns) (h : df.col? c = none) :
    (addMissingFlags df).col? c = none := by
  have h2 : df.cols.lookup c = none := h
  have hnotm : c ∉ flag_columns.filter (fun x => (df.col? x).isNone) :=
    fun hm => hflag (List.mem_of_mem_filter hm)
  show ((df.cols ++ _).lookup c) = none
  rw [List.lookup_append, h2,
    lookup_map_pair_none (fun _ => List.replicate df.nrows (some (0 : ℚ))) c _ hnotm]
  rfl

/-- An absent flag column is synthesized as an all-zero column. -/
theorem addMissingFlags_col_flag (df : DataFrame) (c : String)
    (hcflag : c ∈ flag_columns) (h : df.col? c = none) :
    (addMissingFlags df).col? c = some (List.replicate df.nrows (some 0)) := by
  have h2 : df.cols.lookup c = none := h
  have hmem : c ∈ flag_columns.filter (fun x => (df.col? x).isNone) := by
    rw [List.mem_filter]
    exact ⟨hcflag, by rw [h]; rfl⟩
  show ((df.cols ++ _).lookup c) = _
  rw [List.lookup_append, h2]
  exact lookup_map_pair (fun _ => List.replicate df.nrows (some (0 : ℚ))) c _ hmem

/-- When every expected column is available, selection succeeds and returns
the columns in expected order. -/
theorem selectFeatures_ok (df : DataFrame)
    (h : ∀ c ∈ feature_columns, (df.col? c).isSome) :
    selectFeatures df
      = .ok (feature_columns.map (fun c => (c, (df.col? c).getD []))) := by
  unfold selectFeatures
  have hnil : feature_columns.filter (fun c => (df.col? c).isNone) = [] := by
    rw [List.filter_eq_nil_iff]
    intro a ha
    obtain ⟨v, hv⟩ := Option.isSome_iff_exists.mp (h a ha)
    rw [hv]
    simp
  rw [hnil]

/-- When some expected column is missing, selection fails. -/
theorem selectFeatures_err (df : DataFrame) (c : String)
    (hc : c ∈ feature_columns) (h : df.col? c = none) :
    ∃ cMiss, selectFeatures df = .error cMiss := by
  unfold selectFeatures
  cases hfil : feature_columns.filter (fun x => (df.col? x).isNone) with
  | nil =>
    exfalso
    have hmem : c ∈ feature_columns.filter (fun x => (df.col? x).isNone) := by
      rw [List.mem_filter]
      exact ⟨hc, by rw [h]; rfl⟩
    rw [hfil] at hmem
    cases hmem
  | cons a t => exact ⟨a, rfl⟩

/-! ## C4: input validation never inspects values -/

/-- C4 counterexample: `dfPeriodAllNull` has the critical koi_period column
present but with zero non-null values, yet validation passes — and
`dfNoImpact` is missing the optional non-flag koi_impact column, passes
validation, but then fails preprocessing instead of being default-filled. -/
theorem C4_validation_counterexample :
    validate_input_format dfPeriodAllNull = true
    ∧ dfPeriodAllNull.col? "koi_period" = some [none]
    ∧ ("koi_period" ∈ feature_columns
        ∧ optional_columns.contains "koi_period" = false)
    ∧ (validate_input_format dfNoImpact = true
        ∧ dfNoImpact.col? "koi_impact" = none
        ∧ optional_columns.contains "koi_impact" = true
        ∧ (preprocess_data none dfNoImpact).isOk = false) := by
  refine ⟨by decide, by decide, ⟨by decide, by decide⟩, by decide, by decide,
    by decide, ?_⟩
  obtain ⟨cMiss, hMiss⟩ := selectFeatures_err (addMissingFlags dfNoImpact)
    "koi_impact" (by decide)
    (addMissingFlags_col_none dfNoImpact "koi_impact" (by decide) (by decide))
  unfold preprocess_data
  rw [hMiss]
  rfl

/-- C4 (amended): validation fails exactly when an expected column outside
the optional subset is absent from the input's column set (column values
are never inspected); absent flag columns are synthesized as zero columns
by the preprocessor, while any other absent expected column — optional or
not — makes preprocessing fail rather than being default-filled. -/
theorem C4_validation_amended (df : DataFrame) :
    (validate_input_format df = false ↔
      ∃ c ∈ feature_columns, df.col? c = none
        ∧ optional_columns.contains c = false)
    ∧ (∀ c ∈ flag_columns, df.col? c = none →
        (addMissingFlags df).col? c = some (List.replicate df.nrows (some 0)))
    ∧ (∀ c ∈ feature_columns, c ∉ flag_columns → df.col? c = none →
        ∀ scaler, (preprocess_data scaler df).isOk = false) := by
  refine ⟨?_, ?_, ?_⟩
  · simp only [validate_input_format]
    constructor
    · intro hfalse
      cases hcrit : (feature_columns.filter (fun c => (df.col? c).isNone)).filter
          (fun c => !(optional_columns.contains c)) with
      | nil => rw [hcrit] at hfalse; cases hfalse
      | cons a t =>
        have ha : a ∈ (feature_columns.filter (fun c => (df.col? c).isNone)).filter
            (fun c => !(optional_columns.contains c)) := by
          rw [hcrit]; exact List.mem_cons_self a t
        obtain ⟨ha1, ha2⟩ := List.mem_filter.mp ha
        obtain ⟨ha3, ha4⟩ := List.mem_filter.mp ha1
        refine ⟨a, ha3, Option.isNone_iff_eq_none.mp ha4, ?_⟩
        simpa using ha2
    · rintro ⟨c, hc, hnone, hopt⟩
      have hmem : c ∈ (feature_columns.filter (fun c => (df.col? c).isNone)).filter
          (fun c => !(optional_columns.contains c)) := by
        rw [List.mem_filter, List.mem_filter]
        refine ⟨⟨hc, by rw [hnone]; rfl⟩, by rw [hopt]; rfl⟩
      cases hcrit : (feature_columns.filter (fun c => (df.col? c).isNone)).filter
          (fun c => !(optional_columns.contains c)) with
      | nil => rw [hcrit] at hmem; cases hmem
      | cons a t => rfl
  · intro c hcf hnone
    exact addMissingFlags_col_flag df c hcf hnone
  · intro c hc hflag hnone scaler
    obtain ⟨cMiss, hMiss⟩ := selectFeatures_err (addMissingFlags df) c hc
      (addMissingFlags_col_none df c hflag hnone)
    unfold preprocess_data
    rw [hMiss]
    rfl

/-- Witness for C4 (amended) at `dfNoPeriod`: validation reports failure for
the absent critical koi_period column. -/
theorem C4_validation_amended_witness :
    validate_input_format dfNoPeriod = false
    ∧ (preprocess_data none dfNoPeriod).isOk = false :=
  ⟨((C4_validation_amended dfNoPeriod).1).mpr
      ⟨"koi_period", by decide, by decide, by decide⟩,
    ((C4_validation_amended dfNoPeriod).2.2) "koi_period" (by decide) (by decide)
      (by decide) none⟩

/-! ## C7: preprocessing default-fill -/

/-- A column whose values are all null has no non-null values. -/
theorem filterMap_id_nil_of_all_none (l : List (Option ℚ))
    (h : l.all (·.isNone) = true) : l.filterMap id = [] := by
  simp only [List.filterMap_eq_nil_iff, id]
  simpa using h

/-- A column with some non-null value has a nonempty non-null list. -/
theorem filterMap_id_nonempty_of_not_all_none (l : List (Option ℚ))
    (h : l.all (·.isNone) = false) : (l.filterMap id).isEmpty = false := by
  have hex : ∃ x ∈ l, ¬ x.isNone = true := by simpa using h
  obtain ⟨x, hx, hxn⟩ := hex
  cases x with
  | none => simp at hxn
  | some v =>
    have hv : v ∈ l.filterMap id := List.mem_filterMap.mpr ⟨some v, hx, rfl⟩
    cases hfm : l.filterMap id with
    | nil => rw [hfm] at hv; cases hv
    | cons b u => rfl

/-- C7 counterexample: the critical numeric column koi_period entirely
missing from the input is not default-filled — preprocessing fails with no
output at all. -/
theorem C7_preprocess_counterexample :
    (preprocess_data none dfNoPeriod).isOk = false
    ∧ "koi_period" ∈ feature_columns
    ∧ "koi_period" ∉ flag_columns
    ∧ dfNoPeriod.col? "koi_period" = none
    ∧ default_values "koi_period" = 10 := by
  refine ⟨?_, by decide, by decide, by decide, by decide⟩
  obtain ⟨cMiss, hMiss⟩ := selectFeatures_err (addMissingFlags dfNoPeriod)
    "koi_period" (by decide)
    (addMissingFlags_col_none dfNoPeriod "koi_period" (by decide) (by decide))
  unfold preprocess_data
  rw [hMiss]
  rfl

/-- C7 (amended): for a present numeric (non-flag) feature column that is
entirely null, the preprocessor's (unscaled) output holds the hardcoded
domain default for that column in every row — e.g. 10.0 for koi_period and
5000.0 for koi_steff, not 0 and not a median of the empty set; a present
column with at least one non-null value instead has its nulls filled with
the column's own batch median.  (An entirely absent numeric column makes
preprocessing fail instead; see the counterexample.) -/
theorem C7_preprocess_default_fill (df : DataFrame)
    (hpresent : ∀ c ∈ feature_columns, c ∉ flag_columns → (df.col? c).isSome)
    (c : String) (hc : c ∈ feature_columns) (hflag : c ∉ flag_columns)
    (vals : List (Option ℚ)) (hv : df.col? c = some vals) :
    (∃ out, preprocess_data none df = .ok out
      ∧ (vals.all (·.isNone) = true →
          out.lookup c = some (List.replicate vals.length (default_values c)))
      ∧ (vals.all (·.isNone) = false →
          out.lookup c
            = some (vals.map (fun v => v.getD (median (vals.filterMap id))))))
    ∧ default_values "koi_period" = 10
    ∧ default_values "koi_steff" = 5000 := by
  have hall : ∀ x ∈ feature_columns, ((addMissingFlags df).col? x).isSome := by
    intro x hx
    by_cases hxf : x ∈ flag_columns
    · cases hdf : df.col? x with
      | none => rw [addMissingFlags_col_flag df x hxf hdf]; rfl
      | some w => rw [addMissingFlags_col_some df x w hdf]; rfl
    · obtain ⟨w, hw⟩ := Option.isSome_iff_exists.mp (hpresent x hx hxf)
      rw [addMissingFlags_col_some df x w hw]
      rfl
  have hsel := selectFeatures_ok (addMissingFlags df) hall
  have hout : preprocess_data none df
      = .ok (feature_columns.map
          (fun x => (x, fillColumn x (((addMissingFlags df).col? x).getD [])))) := by
    unfold preprocess_data
    rw [hsel]
    show Except.ok _ = Except.ok _
    rw [List.map_map]
    rfl
  have hcol : (addMissingFlags df).col? c = some vals :=
    addMissingFlags_col_some df c vals hv
  have hlook : (feature_columns.map
        (fun x => (x, fillColumn x (((addMissingFlags df).col? x).getD [])))).lookup c
      = some (fillColumn c vals) := by
    rw [lookup_map_pair
      (fun x => fillColumn x (((addMissingFlags df).col? x).getD [])) c
      feature_columns hc, hcol]
    rfl
  have hcf : flag_columns.contains c = false := by simpa using hflag
  have hcond1 : ¬ (flag_columns.contains c = true) := by
    rw [hcf]
    exact Bool.false_ne_true
  refine ⟨⟨_, hout, ?_, ?_⟩, rfl, rfl⟩
  · intro hnull
    rw [hlook]
    have hnil : vals.filterMap id = [] := filterMap_id_nil_of_all_none vals hnull
    have hcond2 : (vals.filterMap id).isEmpty = true := by rw [hnil]; rfl
    have hfc : fillColumn c vals
        = vals.map (fun v => v.getD (default_values c)) := by
      simp only [fillColumn]
      rw [if_neg hcond1, if_pos hcond2]
    rw [hfc]
    have hallnone : ∀ v ∈ vals, v = none := by simpa using hnull
    have hptw : ∀ v ∈ vals, v.getD (default_values c) = default_values c := by
      intro v hv2
      rw [hallnone v hv2]
      rfl
    rw [List.map_congr_left hptw]
    exact congrArg some (List.map_const vals (default_values c))
  · intro hsome
    rw [hlook]
    have hne : (vals.filterMap id).isEmpty = false :=
      filterMap_id_nonempty_of_not_all_none vals hsome
    have hcond2 : ¬ ((vals.filterMap id).isEmpty = true) := by
      rw [hne]
      exact Bool.false_ne_true
    have hfc : fillColumn c vals
        = vals.map (fun v => v.getD (median (vals.filterMap id))) := by
      simp only [fillColumn]
      rw [if_neg hcond1, if_neg hcond2]
    rw [hfc]

/-- Witness for C7 at `dfSteffNull`: its entirely-null koi_steff column is
filled with the 5000.0 default. -/
theorem C7_preprocess_default_fill_witness :
    (∃ out, preprocess_data none dfSteffNull = .ok out
      ∧ (([(none : Option ℚ)].all (·.isNone)) = true →
          out.lookup "koi_steff"
            = some (List.replicate ([(none : Option ℚ)].length)
                (default_values "koi_steff")))
      ∧ (([(none : Option ℚ)].all (·.isNone)) = false →
          out.lookup "koi_steff"
            = some ([(none : Option ℚ)].map
                (fun v => v.getD (median ([(none : Option ℚ)].filterMap id))))))
    ∧ default_values "koi_period" = 10
    ∧ default_values "koi_steff" = 5000 :=
  C7_preprocess_default_fill dfSteffNull (by decide) "koi_steff" (by decide)
    (by decide) [none] (by decide)

/-! ## C8: extracted confidence always lies in [0, 1] -/

/-- A left fold of `max` over values in [0, 1] starting in [0, 1] stays in
[0, 1]. -/
theorem foldl_max_bounds (p : ℚ) (l : List ℚ)
    (hp : 0 ≤ p ∧ p ≤ 1) (hl : ∀ x ∈ l, 0 ≤ x ∧ x ≤ 1) :
    0 ≤ l.foldl max p ∧ l.foldl max p ≤ 1 := by
  induction l generalizing p with
  | nil => exact hp
  | cons a t ih =>
    have ha := hl a (List.mem_cons_self a t)
    exact ih (max p a) ⟨le_max_of_le_left hp.1, max_le hp.2 ha.2⟩
      (fun x hx => hl x (List.mem_cons_of_mem a hx))

/-- C8: for a valid probability row (confidence = max class probability),
a decision margin (confidence = 1/(1+exp(-|margin|))), or neither
(fixed default 0.8), the confidence extracted by `predict` lies in [0, 1];
and `batch_predict`, which applies the same formula per row, yields only
confidences in [0, 1].  The formula is total, so a confidence value is
always produced — never null. -/
theorem C8_confidence_in_unit_interval (exp : ℚ → ℚ)
    (hexp : ∀ x, 0 < exp x)
    (s : ConfSource) (hs : ValidConfSource s)
    (rows : List ConfSource) (hrows : ∀ r ∈ rows, ValidConfSource r) :
    (0 ≤ extract_confidence exp s ∧ extract_confidence exp s ≤ 1)
    ∧ (∀ conf ∈ batch_confidences exp rows, 0 ≤ conf ∧ conf ≤ 1) := by
  have key : ∀ t, ValidConfSource t →
      0 ≤ extract_confidence exp t ∧ extract_confidence exp t ≤ 1 := by
    intro t ht
    cases t with
    | proba ps =>
      obtain ⟨hne, hb⟩ := ht
      cases ps with
      | nil => exact absurd rfl hne
      | cons p rest =>
        exact foldl_max_bounds p rest (hb p (List.mem_cons_self p rest))
          (fun x hx => hb x (List.mem_cons_of_mem p hx))
    | margin score =>
      have h1 : 0 < exp (-|score|) := hexp _
      have hden : (0 : ℚ) < 1 + exp (-|score|) := by linarith
      constructor
      · exact le_of_lt (div_pos one_pos hden)
      · show (1 : ℚ) / (1 + exp (-|score|)) ≤ 1
        rw [div_le_one hden]
        linarith
    | plain =>
      constructor
      · show (0 : ℚ) ≤ 8 / 10
        norm_num
      · show (8 : ℚ) / 10 ≤ 1
        norm_num
  refine ⟨key s hs, ?_⟩
  intro conf hconf
  obtain ⟨r, hr, rfl⟩ := List.mem_map.mp hconf
  exact key r (hrows r hr)

/-- Witness for C8 with a concrete positive model of `np.exp`: a probability
row, a margin row and a capability-free row. -/
theorem C8_confidence_in_unit_interval_witness :
    (0 ≤ extract_confidence (fun _ => 1) (.proba [1 / 2, 3 / 10])
      ∧ extract_confidence (fun _ => 1) (.proba [1 / 2, 3 / 10]) ≤ 1)
    ∧ (∀ conf ∈ batch_confidences (fun _ => 1) [.margin 2, .plain],
        0 ≤ conf ∧ conf ≤ 1) :=
  C8_confidence_in_unit_interval (fun _ => 1) (fun _ => one_pos)
    (.proba [1 / 2, 3 / 10])
    ⟨by simp, by
      intro p hp
      rcases List.mem_cons.mp hp with rfl | hp2
      · norm_num
      · rcases List.mem_cons.mp hp2 with rfl | h3
        · norm_num
        · cases h3⟩
    [.margin 2, .plain]
    (fun r hr => by
      rcases List.mem_cons.mp hr with h | h
      · rw [h]
        trivial
      · rcases List.mem_cons.mp h with h2 | h2
        · rw [h2]
          trivial
        · cases h2)

/-! ## C3: bulk inference failure isolation and counters -/

/-- C3 evaluation at the failing input: on a two-candidate chunk whose
chunk-level predict raises, both rows are marked `error` and the run
continues, but `total_errors` is bumped by `len(batch)` once per candidate
(the increment sits inside the loop), so the final counters read
successful=0, errors=4 for 2 inputs — they cannot sum to the input count.
With a per-row update failure instead, only the failing row is marked
`error`, the other row completes, and the counters do sum to the input
count. -/
theorem C3_bulk_counters_eval :
    (run_bulk_ml_prediction envChunkFail bulkDb [1, 2]).2
      = { total_processed := 2, total_successful := 0, total_errors := 4 }
    ∧ ((run_bulk_ml_prediction envChunkFail bulkDb [1, 2]).1.map
        (·.analysis_status) = [.error, .error])
    ∧ ((run_bulk_ml_prediction envChunkFail bulkDb [1, 2]).2.total_successful
        + (run_bulk_ml_prediction envChunkFail bulkDb [1, 2]).2.total_errors ≠ 2)
    ∧ ((run_bulk_ml_prediction envRowFail bulkDb [1, 2]).1.map
        (fun c => (c.analysis_status, c.ai_prediction))
        = [(.error, none), (.completed, some "CONFIRMED")])
    ∧ (run_bulk_ml_prediction envRowFail bulkDb [1, 2]).2
        = { total_processed := 2, total_successful := 1, total_errors := 1 } :=
  ⟨by decide, by decide, by decide, by decide, by decide⟩

end NasaExo
